import Mathlib

/-!
Verification of the EMC Export Opportunity Finder pipeline
(src/emc_export_app.py) against its natural-language specification.

The Python source is shallowly embedded: each pipeline stage becomes a pure
Lean function over explicit inputs that stand for the external world (the
HTTP fetch outcome, the Comtrade API response, the optional CSV upload).
pandas DataFrames are embedded as typed row lists; for the distributor and
market tables we additionally track whether their columns exist, because
pandas frames built from an empty record list (pd.DataFrame() or
pd.DataFrame([])) have no columns at all: the workflow hands the report
composer such a column-free distributor frame, where grouping by the
Country column raises a KeyError, and the Market Suggestor returns one on
a successful response with no data records.
-/

set_option maxRecDepth 40000

namespace EMC

/-! ### Values stored in the scraper result dictionary -/

/-- A Python value stored in the dictionary returned by scrape_site: either a
string or a list of strings (the Product Headings entry). -/
inductive Val where
  | str (s : String)
  | list (l : List String)
deriving DecidableEq

/-- Dictionary lookup, modelling dict.get with a default of None:
first entry whose key matches, if any. -/
def dget (d : List (String × Val)) (k : String) : Option Val :=
  (d.find? (fun kv => kv.1 == k)).map (fun kv => kv.2)

/-! ### Data model: rows of each table -/

/-- One row of the market table: columns Country and Demand Score
(the latter an opaque label passed through from the API). -/
structure MarketRow where
  country : String
  demandScore : String
deriving DecidableEq

/-- A pandas DataFrame holding market rows. hasCols records whether the
Country/Demand Score columns exist: pd.DataFrame(parsed) has them exactly
when the record list parsed is nonempty, while pd.DataFrame([]) is the
column-free empty frame. -/
structure MarketFrame where
  hasCols : Bool
  rows : List MarketRow
deriving DecidableEq

/-- One row of the buyer table: columns Company, Country, Contact. -/
structure BuyerRow where
  company : String
  country : String
  contact : String
deriving DecidableEq

/-- One row of a distributor table: columns Distributor and Country. -/
structure DistRow where
  distributor : String
  country : String
deriving DecidableEq

/-- A pandas DataFrame holding distributor rows. hasCols records whether
the Distributor/Country columns exist: frames built by
find_trusted_distributors or pd.concat of such frames have them, while the
bare pd.DataFrame() produced by the workflow when no lookup ran has no
columns at all. groupby on the Country column raises KeyError when the
column is absent, so the distinction is semantically load-bearing. -/
structure DistFrame where
  hasCols : Bool
  rows : List DistRow
deriving DecidableEq

/-! ### Stage 1: Site Scraper -/

/-- An HTML element as seen by BeautifulSoup find_all: its tag name and the
text returned by get_text (before stripping). -/
structure Elem where
  tag : String
  text : String
deriving DecidableEq

/-- A parsed HTML page: optional title element text, the meta
name=description tag (none = absent, some none = present without a content
attribute, some (some c) = content c), and all elements in document order. -/
structure Page where
  title : Option String
  metaDesc : Option (Option String)
  elems : List Elem
deriving DecidableEq

/-- Outcome of requests.get on the brand URL: either an exception before a
response exists (timeout, connection error, invalid URL) carrying the
exception text, or a response with an HTTP status code, the reason/url text
that requests interpolates into HTTPError messages, and the parsed page. -/
inductive FetchResult where
  | fail (msg : String)
  | resp (status : Nat) (reasonUrl : String) (page : Page)
deriving DecidableEq

/-- Python str.strip as applied by get_text(strip=True): drop whitespace
from both ends. -/
def pyStrip (s : String) : String :=
  String.mk (((s.data.dropWhile Char.isWhitespace).reverse.dropWhile
    Char.isWhitespace).reverse)

/-- The message of the HTTPError raised by Response.raise_for_status, which
fires exactly for status codes in [400, 600): 4xx gives a Client Error
message, 5xx a Server Error message (requests models.py). -/
def httpErrorMsg (status : Nat) (reasonUrl : String) : String :=
  toString status ++ (if status < 500 then " Client Error: " else " Server Error: ")
    ++ reasonUrl

/-- The Product Headings value of scrape_site, line 27 and 31 of the source:
the stripped texts of h1/h2/h3 elements whose stripped length exceeds 5,
in document order, truncated to the first 10. -/
def productHeadings (page : Page) : List String :=
  (((page.elems.filter
      (fun e => e.tag == "h1" || e.tag == "h2" || e.tag == "h3")).map
    (fun e => pyStrip e.text)).filter (fun t => 5 < t.length)).take 10

/-- Stage 1, scrape_site (source lines 20 to 34): on any exception (network
failure or raise_for_status on a 4xx/5xx response) return the single-entry
error dictionary; otherwise return the three-entry summary dictionary. -/
def scrape_site (f : FetchResult) : List (String × Val) :=
  match f with
  | .fail msg => [("error", Val.str ("Unable to scrape site: " ++ msg))]
  | .resp status reasonUrl page =>
    if 400 ≤ status ∧ status < 600 then
      [("error", Val.str ("Unable to scrape site: " ++ httpErrorMsg status reasonUrl))]
    else
      [("Page Title", Val.str (match page.title with
          | some t => t
          | none => "No title found")),
       ("Meta Description", Val.str (match page.metaDesc with
          | some (some c) => c
          | _ => "No description found")),
       ("Product Headings", Val.list (productHeadings page))]

/-! ### Stage 2: Market Suggestor -/

/-- One record of the Comtrade API response data array; only the two fields
the code reads, each possibly absent. -/
structure ComtradeItem where
  ptTitle : Option String
  rgDesc : Option String
deriving DecidableEq

/-- Outcome of the Comtrade request: an exception text (network, auth,
raise_for_status, JSON decoding), or a decoded body whose data field may be
absent (data.get with default [] in the source). -/
def ComtradeResp : Type := Except String (Option (List ComtradeItem))

/-- The parsed record list built by the loop at source lines 44 to 49: the
first 5 data records mapped to (ptTitle or N/A, rgDesc or N/A). -/
def parsedRows (payload : Option (List ComtradeItem)) : List MarketRow :=
  ((payload.getD []).take 5).map
    (fun it => ⟨it.ptTitle.getD "N/A", it.rgDesc.getD "N/A"⟩)

/-- Stage 2, suggest_markets (source lines 37 to 52): on failure the
single-row error frame (pd.DataFrame of a one-record list, which has both
columns); on success pd.DataFrame(parsed), which carries the
Country/Demand Score columns exactly when parsed is nonempty — a response
with an empty or missing data array yields the column-free empty frame. -/
def suggest_markets (resp : ComtradeResp) : MarketFrame :=
  match resp with
  | .error e => ⟨true, [⟨"Error", e⟩]⟩
  | .ok payload => ⟨!(parsedRows payload).isEmpty, parsedRows payload⟩

/-- The column labels of a market frame: the two labels of the records it
was built from when the columns exist, none for the column-free
pd.DataFrame([]). -/
def marketColumns (m : MarketFrame) : List String :=
  if m.hasCols then ["Country", "Demand Score"] else []

/-! ### Stage 3: Buyer Source -/

/-- Stage 3, fetch_buyer_list (source lines 66 to 75): the fixed mock table;
the product term parameter is accepted but unused, and nothing in the try
block can raise. -/
def fetch_buyer_list (_product_term : String) : List BuyerRow :=
  [⟨"ExportYeti Buyers Co.", "USA", "contact@buyexportyeti.com"⟩,
   ⟨"Global Import Ventures", "Mexico", "sales@globalimport.mx"⟩,
   ⟨"AsiaMed Devices", "Philippines", "info@asiamed.ph"⟩]

/-- Module-level buyer table logic (source lines 58 to 76): an uploaded file
is parsed as-is; a parse failure leaves the table empty; with no upload the
mock list is used. -/
def buyerTable (upload : Option (Except String (List BuyerRow)))
    (term : String) : List BuyerRow :=
  match upload with
  | none => fetch_buyer_list term
  | some (.ok rows) => rows
  | some (.error _) => []

/-! ### Stage 4: Distributor Lookup -/

/-- The static trusted mapping of find_trusted_distributors
(source lines 81 to 85), with the get default for unknown countries. -/
def trusted (country : String) : List String :=
  if country = "USA" then ["MedEquip USA", "Trusted Medical Supplies"]
  else if country = "Mexico" then ["Distribuciones SaludMX", "Grupo Médico MX"]
  else if country = "Philippines" then ["PhilMed Distributors", "Manila Health Corp"]
  else ["No trusted partners listed"]

/-- Stage 4, find_trusted_distributors (source lines 79 to 88): a DataFrame
with a Distributor column from the mapping and the country broadcast into
the Country column; nothing in the try block can raise. -/
def find_trusted_distributors (country : String) : DistFrame :=
  ⟨true, (trusted country).map (fun d => ⟨d, country⟩)⟩

/-- The list of country arguments the workflow passes to
find_trusted_distributors (source line 147): one per market row whose
Country is not one of the sentinels Error and Exception, in row order. -/
def distributorLookupArgs (market : List MarketRow) : List String :=
  (market.filter
    (fun r => !(r.country == "Error" || r.country == "Exception"))).map
    (fun r => r.country)

/-- The per-row lookup results of source line 147. -/
def distributor_df_list (market : List MarketRow) : List DistFrame :=
  (distributorLookupArgs market).map find_trusted_distributors

/-- Source line 148: pd.concat of the lookup results when the list is
nonempty, otherwise the column-free pd.DataFrame(). -/
def concatFrames (l : List DistFrame) : DistFrame :=
  match l with
  | [] => ⟨false, []⟩
  | _ => ⟨true, (l.map (fun f => f.rows)).flatten⟩

/-! ### String ordering, as used by pandas groupby key sorting

Python compares strings lexicographically by code point; pandas groupby
with its default sort=True lists group keys in ascending order. -/

/-- Lexicographic less-or-equal on char lists by code point, with the
shorter list first on ties (Python string comparison). -/
def cmpLe : List Char → List Char → Bool
  | [], _ => true
  | _ :: _, [] => false
  | a :: as, b :: bs =>
    if a.toNat < b.toNat then true
    else if b.toNat < a.toNat then false
    else cmpLe as bs

/-- Python string less-or-equal. -/
def strLe (a b : String) : Bool := cmpLe a.data b.data

/-- Insert into a list sorted by strLe. -/
def insertSorted (x : String) : List String → List String
  | [] => [x]
  | y :: ys => if strLe x y then x :: y :: ys else y :: insertSorted x ys

/-- Insertion sort by strLe. -/
def sortStr : List String → List String
  | [] => []
  | x :: xs => insertSorted x (sortStr xs)

/-- Deduplication keeping first occurrences, with an accumulator of already
seen values. -/
def firstSeenAux (seen : List String) : List String → List String
  | [] => []
  | c :: rest =>
    if seen.contains c then firstSeenAux seen rest
    else c :: firstSeenAux (c :: seen) rest

/-- The distinct values of a list in order of first appearance. -/
def firstSeen (l : List String) : List String := firstSeenAux [] l

/-- pandas DataFrame.groupby("Country") as used at source line 96: raises
KeyError (message quoting the column name) when the Country column is
absent, which is the case exactly for the column-free pd.DataFrame();
otherwise yields one group per distinct country, keys in ascending order
(default sort=True), each group listing that country's Distributor values
in original row order. -/
def groupbyCountry (df : DistFrame) :
    Except String (List (String × List String)) :=
  if df.hasCols then
    Except.ok ((sortStr (firstSeen (df.rows.map (fun r => r.country)))).map
      (fun c => (c, (df.rows.filter (fun r => r.country == c)).map
        (fun r => r.distributor))))
  else
    Except.error "\x27Country\x27"

/-! ### Stage 5: Report Composer -/

/-- The dist_sections string of source lines 93 to 97: per-country blocks
joined by blank lines, each a bold heading followed by one bullet per
distributor name. -/
def distSections (groups : List (String × List String)) : String :=
  "\n\n".intercalate (groups.map (fun g =>
    "**" ++ g.1 ++ " Distributors:**\n" ++
      "\n".intercalate (g.2.map (fun n => "- " ++ n))))

/-- One pipe-delimited markdown table row. -/
def mdRow (cells : List String) : String :=
  "| " ++ " | ".intercalate cells ++ " |"

/-- DataFrame.to_markdown(index=False): header row, separator row, one row
per record. Column-width padding and alignment colons of tabulate are
elided; the spec scopes report layout formatting out as presentational. -/
def mdTable (headers : List String) (rows : List (List String)) : String :=
  "\n".intercalate
    (mdRow headers :: mdRow (headers.map (fun _ => "---")) :: rows.map mdRow)

/-- to_markdown of the market frame: its columns (none for the column-free
empty frame) over its rows. -/
def marketMarkdown (m : MarketFrame) : String :=
  mdTable (marketColumns m) (m.rows.map (fun r => [r.country, r.demandScore]))

/-- to_markdown of the buyer table. -/
def buyersMarkdown (rows : List BuyerRow) : String :=
  mdTable ["Company", "Country", "Contact"]
    (rows.map (fun r => [r.company, r.country, r.contact]))

/-- Python str() of a dictionary value as interpolated by the f-string:
strings verbatim, lists in repr form. -/
def valFmt (v : Val) : String :=
  match v with
  | .str s => s
  | .list l =>
      "[" ++ ", ".intercalate (l.map (fun s => "\x27" ++ s ++ "\x27")) ++ "]"

/-- brand_data.get(k, default) interpolated into the f-string. -/
def dgetFmt (d : List (String × Val)) (k dflt : String) : String :=
  match dget d k with
  | none => dflt
  | some v => valFmt v

/-- The comma join of brand_data.get("Product Headings", []) at source
line 107; joining a string joins its characters, as in Python. -/
def joinHeadings (d : List (String × Val)) : String :=
  match dget d "Product Headings" with
  | none => ""
  | some (.list l) => ", ".intercalate l
  | some (.str s) => ", ".intercalate (s.data.map (fun c => String.mk [c]))

/-- The f-string template of source lines 99 to 117, including its
8-space indentation and surrounding newlines. -/
def reportTemplate (title desc headings marketMd buyersMd distSec : String) :
    String :=
  "\n        ## Export Opportunity Report\n\n        **Brand Title:** " ++ title ++
  "\n\n        **Meta Description:** " ++ desc ++
  "\n\n        ### Sample Product Headings\n        " ++ headings ++
  "\n\n        ### Top Markets\n        " ++ marketMd ++
  "\n\n        ### Buyer Leads\n        " ++ buyersMd ++
  "\n\n        ### Trusted Distributors by Country\n        " ++ distSec ++
  "\n        "

/-- Stage 5, create_report (source lines 91 to 120). The try block computes
dist_sections first; the only operation in the block that can raise is the
groupby on the distributor frame, whose KeyError is caught and turned into
the single failure message replacing the whole report. -/
def create_report (brand_data : List (String × Val))
    (market_data : MarketFrame) (buyers : List BuyerRow)
    (distributors_by_market : DistFrame) : String :=
  match groupbyCountry distributors_by_market with
  | .error e => "Report generation failed: " ++ e
  | .ok groups =>
      reportTemplate (dgetFmt brand_data "Page Title" "N/A")
        (dgetFmt brand_data "Meta Description" "N/A")
        (joinHeadings brand_data)
        (marketMarkdown market_data)
        (buyersMarkdown buyers)
        (distSections groups)

/-! ### Download link (base64) -/

/-- The standard base64 alphabet. -/
def b64Table : List Char :=
  ['A', 'B', 'C', 'D', 'E', 'F', 'G', 'H', 'I', 'J', 'K', 'L', 'M',
   'N', 'O', 'P', 'Q', 'R', 'S', 'T', 'U', 'V', 'W', 'X', 'Y', 'Z',
   'a', 'b', 'c', 'd', 'e', 'f', 'g', 'h', 'i', 'j', 'k', 'l', 'm',
   'n', 'o', 'p', 'q', 'r', 's', 't', 'u', 'v', 'w', 'x', 'y', 'z',
   '0', '1', '2', '3', '4', '5', '6', '7', '8', '9', '+', '/']

/-- The alphabet character for a 6-bit value. -/
def encChar (n : Nat) : Char := b64Table.getD n 'A'

/-- The 6-bit value of an alphabet character. -/
def decChar (c : Char) : Nat := b64Table.indexOf c

/-- base64.b64encode on a byte sequence: 3 bytes become 4 characters, a
2-byte tail is padded with one =, a 1-byte tail with two. -/
def b64encode : List Nat → List Char
  | [] => []
  | [a] => [encChar (a / 4), encChar (a % 4 * 16), '=', '=']
  | [a, b] => [encChar (a / 4), encChar (a % 4 * 16 + b / 16),
               encChar (b % 16 * 4), '=']
  | a :: b :: c :: rest =>
      encChar (a / 4) :: encChar (a % 4 * 16 + b / 16) ::
      encChar (b % 16 * 4 + c / 64) :: encChar (c % 64) :: b64encode rest

/-- The three bytes held by one unpadded base64 quadruple. -/
def decodeQuad (w x y z : Char) : List Nat :=
  [decChar w * 4 + decChar x / 16,
   decChar x % 16 * 16 + decChar y / 4,
   decChar y % 4 * 64 + decChar z]

/-- base64 decoding of a character sequence, quadruple by quadruple, with
padding allowed only in the final quadruple. -/
def b64decode : List Char → Option (List Nat)
  | [] => some []
  | w :: x :: y :: z :: rest =>
      if y = '=' then
        if z = '=' ∧ rest = [] then some [decChar w * 4 + decChar x / 16]
        else none
      else if z = '=' then
        if rest = [] then
          some [decChar w * 4 + decChar x / 16,
                decChar x % 16 * 16 + decChar y / 4]
        else none
      else (b64decode rest).map (fun tail => decodeQuad w x y z ++ tail)
  | _ => none

/-- download_link (source lines 122 to 127), taking the UTF-8 bytes of
object_to_download (the result of str.encode): the inline anchor whose
href embeds the base64 payload. base64.b64encode on bytes is total, so the
except branch is unreachable. -/
def download_link (content : List Nat)
    (download_filename link_text : String) : String :=
  "<a href=\"data:file/txt;base64," ++ String.mk (b64encode content) ++
    "\" download=\"" ++ download_filename ++ "\">" ++ link_text ++ "</a>"

/-! ### Workflow (source lines 130 to 158) -/

/-- The gated pipeline run for one render: none when the scrape result
carries the error key (the workflow only calls st.error then), otherwise
the report text passed to st.markdown and download_link. The Comtrade API
is an input mapping the queried product term to its response; the keyword
default of source lines 140 and 76 applies to both the market query and
the mock buyer call. -/
def workflow (fetch : FetchResult) (product_keywords : String)
    (api : String → ComtradeResp)
    (upload : Option (Except String (List BuyerRow))) : Option String :=
  let site_info := scrape_site fetch
  if site_info.any (fun kv => kv.1 == "error") then none
  else
    let term := if product_keywords == "" then "Mobility equipment"
      else product_keywords
    let market_df := suggest_markets (api term)
    let buyer_df := buyerTable upload term
    let distributors_df := concatFrames (distributor_df_list market_df.rows)
    some (create_report site_info market_df buyer_df distributors_df)

/-! ### Substring checking, used to state facts about report contents -/

/-- Whether the first list is an initial segment of the second. -/
def pre : List Char → List Char → Bool
  | [], _ => true
  | _ :: _, [] => false
  | a :: as, b :: bs => a == b && pre as bs

/-- Whether the needle occurs contiguously in the haystack. -/
def containsL (needle : List Char) : List Char → Bool
  | [] => needle.isEmpty
  | c :: t => pre needle (c :: t) || containsL needle t

/-- Whether the needle string occurs in the haystack string. -/
def strContains (hay needle : String) : Bool := containsL needle.data hay.data

/-- Concrete page used to instantiate the scraper heading theorem: one
qualifying h1 (stripped length 17), one too-short h2. -/
def samplePage : Page :=
  ⟨some "Acme", none, [⟨"h1", " Mobility Scooters "⟩, ⟨"h2", "Hi"⟩]⟩

end EMC

namespace EMC

/-- Claim C5 as stated is false: a successful Comtrade response whose data
array is empty (or missing, via data.get with default []) gives
parsed = [], and pd.DataFrame([]) is the column-free empty frame, so the
returned table has zero columns, not exactly 2. -/
theorem C5_counterexample :
    suggest_markets (Except.ok (some [])) = ⟨false, []⟩ ∧
    suggest_markets (Except.ok none) = ⟨false, []⟩ ∧
    marketColumns (suggest_markets (Except.ok (some []))) = [] ∧
    (marketColumns (suggest_markets (Except.ok (some [])))).length ≠ 2 :=
  ⟨rfl, rfl, rfl, by decide⟩

/-- Claim C5 amended: the Market Suggestor returns a frame with at most 5
rows and never an exception; whenever the frame has any rows it has exactly
the two columns Country and Demand Score; every failure yields the
single-row error frame with country Error and the error message as demand
score (so with both columns); but a successful response with an empty or
missing data array yields the column-free empty frame with zero columns. -/
theorem C5_amended_market_table_shape (resp : ComtradeResp) :
    (suggest_markets resp).rows.length ≤ 5 ∧
    ((suggest_markets resp).rows ≠ [] →
      marketColumns (suggest_markets resp) = ["Country", "Demand Score"]) ∧
    (∀ e, suggest_markets (Except.error e) = ⟨true, [⟨"Error", e⟩]⟩) ∧
    (∀ payload, payload.getD [] = [] →
      suggest_markets (Except.ok payload) = ⟨false, []⟩) := by
  refine ⟨?_, ?_, fun e => rfl, fun payload hemp => ?_⟩
  · cases resp with
    | error e => simp [suggest_markets]
    | ok payload =>
        simp only [suggest_markets, parsedRows, List.length_map]
        exact List.length_take_le 5 _
  · intro hne
    cases resp with
    | error e => rfl
    | ok payload =>
        have hrows : (suggest_markets (Except.ok payload)).rows =
          parsedRows payload := rfl
        rw [hrows] at hne
        show marketColumns ⟨!(parsedRows payload).isEmpty,
          parsedRows payload⟩ = _
        cases hp : parsedRows payload with
        | nil => exact absurd hp hne
        | cons a t => rfl
  · have hp : parsedRows payload = [] := by simp [parsedRows, hemp]
    show (⟨!(parsedRows payload).isEmpty, parsedRows payload⟩ : MarketFrame) = _
    rw [hp]
    rfl

/-- Witness for C5 amended at a concrete failed response (both columns, one
row) and at a concrete empty-data success (zero columns). -/
theorem C5_amended_market_table_shape_witness :
    (suggest_markets (Except.error "boom")).rows.length ≤ 5 ∧
    suggest_markets (Except.error "boom") = ⟨true, [⟨"Error", "boom"⟩]⟩ ∧
    marketColumns (suggest_markets (Except.error "boom")) =
      ["Country", "Demand Score"] ∧
    suggest_markets (Except.ok (some [])) = ⟨false, []⟩ := by
  have h := C5_amended_market_table_shape (Except.error "boom")
  exact ⟨h.1, h.2.2.1 "boom", h.2.1 (by decide), h.2.2.2 (some []) rfl⟩

/-- Claim C6 as stated is false: a 304 response has a non-2xx status, yet
scrape_site returns the three-entry success dictionary without the error
key, because raise_for_status raises only for statuses in [400, 600). -/
theorem C6_counterexample :
    scrape_site (FetchResult.resp 304 "r" ⟨some "Home", none, []⟩) =
      [("Page Title", Val.str "Home"),
       ("Meta Description", Val.str "No description found"),
       ("Product Headings", Val.list [])] ∧
    (scrape_site (FetchResult.resp 304 "r" ⟨some "Home", none, []⟩)).any
      (fun kv => kv.1 == "error") = false ∧
    ¬ (200 ≤ 304 ∧ 304 < 300) := by
  decide

/-- Claim C6 amended: the Scraper returns the error-tagged record, never an
exception, for every pre-response failure (timeout, connection error) and
for every response status in [400, 600); statuses outside that range, such
as 304, are scraped as success. -/
theorem C6_amended_scraper_error_tagging :
    (∀ msg, scrape_site (.fail msg) =
        [("error", Val.str ("Unable to scrape site: " ++ msg))]) ∧
    (∀ s r p, 400 ≤ s → s < 600 →
        scrape_site (.resp s r p) =
          [("error",
            Val.str ("Unable to scrape site: " ++ httpErrorMsg s r))]) ∧
    (∀ s r p, ¬ (400 ≤ s ∧ s < 600) →
        (scrape_site (.resp s r p)).any (fun kv => kv.1 == "error") = false) := by
  refine ⟨fun msg => rfl, fun s r p h1 h2 => ?_, fun s r p h => ?_⟩
  · simp only [scrape_site]
    rw [if_pos ⟨h1, h2⟩]
  · simp only [scrape_site]
    rw [if_neg h]
    rfl

/-- Witness for C6 amended at a timeout, a 404 response and a 304 response. -/
theorem C6_amended_scraper_error_tagging_witness :
    scrape_site (.fail "timed out") =
      [("error", Val.str "Unable to scrape site: timed out")] ∧
    scrape_site (.resp 404 "Not Found for url: http://x" ⟨none, none, []⟩) =
      [("error", Val.str
        "Unable to scrape site: 404 Client Error: Not Found for url: http://x")] ∧
    (scrape_site (.resp 304 "r" ⟨none, none, []⟩)).any
      (fun kv => kv.1 == "error") = false := by
  have h := C6_amended_scraper_error_tagging
  refine ⟨h.1 "timed out", ?_,
    h.2.2 304 "r" ⟨none, none, []⟩ (by decide)⟩
  rw [h.2.1 404 "Not Found for url: http://x" ⟨none, none, []⟩
    (by decide) (by decide)]
  rfl

/-- Claim C7: on a successfully fetched page the returned headings are the
first 10 h1/h2/h3 texts (stripped) of length above 5, in document order, so
there are at most 10 of them, each longer than 5 characters, and they form
a sublist of the stripped h1/h2/h3 texts in document order. -/
theorem C7_scraper_headings (page : Page) (status : Nat) (reasonUrl : String)
    (h : ¬ (400 ≤ status ∧ status < 600)) :
    dget (scrape_site (.resp status reasonUrl page)) "Product Headings" =
      some (Val.list (productHeadings page)) ∧
    productHeadings page =
      (((page.elems.filter
          (fun e => e.tag == "h1" || e.tag == "h2" || e.tag == "h3")).map
        (fun e => pyStrip e.text)).filter (fun t => 5 < t.length)).take 10 ∧
    (productHeadings page).length ≤ 10 ∧
    (∀ t ∈ productHeadings page, 5 < t.length) ∧
    List.Sublist (productHeadings page)
      ((page.elems.filter
          (fun e => e.tag == "h1" || e.tag == "h2" || e.tag == "h3")).map
        (fun e => pyStrip e.text)) := by
  refine ⟨?_, rfl, List.length_take_le 10 _, ?_, ?_⟩
  · simp only [scrape_site]
    rw [if_neg h]
    rfl
  · intro t ht
    have ht2 := List.mem_of_mem_take ht
    have := List.mem_filter.mp ht2
    simpa using this.2
  · exact (List.take_sublist 10 _).trans (List.filter_sublist _)

/-- Witness for C7 at a concrete 200 response. -/
theorem C7_scraper_headings_witness :
    ¬ (400 ≤ 200 ∧ 200 < 600) ∧
    (dget (scrape_site (.resp 200 "OK" samplePage)) "Product Headings" =
      some (Val.list (productHeadings samplePage)) ∧
    productHeadings samplePage =
      (((samplePage.elems.filter
          (fun e => e.tag == "h1" || e.tag == "h2" || e.tag == "h3")).map
        (fun e => pyStrip e.text)).filter (fun t => 5 < t.length)).take 10 ∧
    (productHeadings samplePage).length ≤ 10 ∧
    (∀ t ∈ productHeadings samplePage, 5 < t.length) ∧
    List.Sublist (productHeadings samplePage)
      ((samplePage.elems.filter
          (fun e => e.tag == "h1" || e.tag == "h2" || e.tag == "h3")).map
        (fun e => pyStrip e.text))) :=
  ⟨by decide, C7_scraper_headings samplePage 200 "OK" (by decide)⟩

/-- Claim C8: with no uploaded file, the Buyer Source returns the identical
fixed table of 3 hardcoded buyer records for every keyword. -/
theorem C8_buyer_stub_keyword_independent (x y : String) :
    fetch_buyer_list x = fetch_buyer_list y ∧
    buyerTable none x = fetch_buyer_list x ∧
    fetch_buyer_list x =
      [⟨"ExportYeti Buyers Co.", "USA", "contact@buyexportyeti.com"⟩,
       ⟨"Global Import Ventures", "Mexico", "sales@globalimport.mx"⟩,
       ⟨"AsiaMed Devices", "Philippines", "info@asiamed.ph"⟩] ∧
    (fetch_buyer_list x).length = 3 :=
  ⟨rfl, rfl, rfl, rfl⟩

/-! ### Order-theoretic facts about the string comparison and the sort -/

/-- Totality of the lexicographic comparison on char lists. -/
theorem cmpLe_total (x : List Char) : ∀ y, cmpLe x y = true ∨ cmpLe y x = true := by
  induction x with
  | nil => intro y; exact Or.inl rfl
  | cons a as ih =>
    intro y
    cases y with
    | nil => exact Or.inr rfl
    | cons b bs =>
      rcases Nat.lt_trichotomy a.toNat b.toNat with h | h | h
      · left
        simp only [cmpLe]
        rw [if_pos h]
      · have h1 : ¬ a.toNat < b.toNat := by omega
        have h2 : ¬ b.toNat < a.toNat := by omega
        rcases ih bs with ih1 | ih1
        · left
          simp only [cmpLe]
          rw [if_neg h1, if_neg h2]
          exact ih1
        · right
          simp only [cmpLe]
          rw [if_neg h2, if_neg h1]
          exact ih1
      · right
        simp only [cmpLe]
        rw [if_pos h]

/-- Transitivity of the lexicographic comparison on char lists. -/
theorem cmpLe_trans (x : List Char) :
    ∀ y z, cmpLe x y = true → cmpLe y z = true → cmpLe x z = true := by
  induction x with
  | nil => intro y z _ _; rfl
  | cons a as ih =>
    intro y z hxy hyz
    cases y with
    | nil => simp [cmpLe] at hxy
    | cons b bs =>
      cases z with
      | nil => simp [cmpLe] at hyz
      | cons c cs =>
        simp only [cmpLe] at hxy hyz ⊢
        by_cases hac : a.toNat < c.toNat
        · rw [if_pos hac]
        · by_cases hab : a.toNat < b.toNat
          · by_cases hbc : b.toNat < c.toNat
            · exact absurd (by omega) hac
            · by_cases hcb : c.toNat < b.toNat
              · rw [if_neg hbc, if_pos hcb] at hyz
                simp at hyz
              · exact absurd (by omega) hac
          · by_cases hba : b.toNat < a.toNat
            · rw [if_neg hab, if_pos hba] at hxy
              simp at hxy
            · by_cases hbc : b.toNat < c.toNat
              · exact absurd (by omega) hac
              · by_cases hcb : c.toNat < b.toNat
                · rw [if_neg hbc, if_pos hcb] at hyz
                  simp at hyz
                · rw [if_neg hab, if_neg hba] at hxy
                  rw [if_neg hbc, if_neg hcb] at hyz
                  rw [if_neg hac, if_neg (by omega)]
                  exact ih bs cs hxy hyz

/-- Totality of the Python string comparison. -/
theorem strLe_total (a b : String) : strLe a b = true ∨ strLe b a = true :=
  cmpLe_total a.data b.data

/-- Transitivity of the Python string comparison. -/
theorem strLe_trans (a b c : String) :
    strLe a b = true → strLe b c = true → strLe a c = true :=
  cmpLe_trans a.data b.data c.data

/-- Sorted insertion permutes: it only moves the new element inward. -/
theorem insertSorted_perm (x : String) (l : List String) :
    (insertSorted x l).Perm (x :: l) := by
  induction l with
  | nil => exact List.Perm.refl _
  | cons y ys ih =>
    simp only [insertSorted]
    by_cases h : strLe x y = true
    · rw [if_pos h]
    · rw [if_neg h]
      exact (List.Perm.cons y ih).trans (List.Perm.swap x y ys)

/-- The insertion sort is a permutation of its input. -/
theorem sortStr_perm (l : List String) : (sortStr l).Perm l := by
  induction l with
  | nil => exact List.Perm.refl _
  | cons x xs ih =>
    exact (insertSorted_perm x (sortStr xs)).trans (List.Perm.cons x ih)

/-- Sorted insertion preserves pairwise sortedness. -/
theorem insertSorted_pairwise (x : String) (l : List String)
    (hl : l.Pairwise (fun a b => strLe a b = true)) :
    (insertSorted x l).Pairwise (fun a b => strLe a b = true) := by
  induction l with
  | nil => simp [insertSorted]
  | cons y ys ih =>
    rcases List.pairwise_cons.mp hl with ⟨hy, hys⟩
    simp only [insertSorted]
    by_cases h : strLe x y = true
    · rw [if_pos h]
      refine List.pairwise_cons.mpr ⟨?_, hl⟩
      intro b hb
      rcases List.mem_cons.mp hb with rfl | hb
      · exact h
      · exact strLe_trans x y b h (hy b hb)
    · rw [if_neg h]
      have hyx : strLe y x = true := (strLe_total x y).resolve_left h
      refine List.pairwise_cons.mpr ⟨?_, ih hys⟩
      intro b hb
      have hb2 := (insertSorted_perm x ys).mem_iff.mp hb
      rcases List.mem_cons.mp hb2 with rfl | hb2
      · exact hyx
      · exact hy b hb2

/-- The insertion sort output is pairwise sorted. -/
theorem sortStr_pairwise (l : List String) :
    (sortStr l).Pairwise (fun a b => strLe a b = true) := by
  induction l with
  | nil => simp [sortStr]
  | cons x xs ih => exact insertSorted_pairwise x (sortStr xs) ih

/-- Membership in the deduplication with accumulator: present iff present
in the remainder and not already seen. -/
theorem mem_firstSeenAux (a : String) :
    ∀ (l seen : List String), a ∈ firstSeenAux seen l ↔ a ∈ l ∧ a ∉ seen := by
  intro l
  induction l with
  | nil => intro seen; simp [firstSeenAux]
  | cons c rest ih =>
    intro seen
    simp only [firstSeenAux]
    by_cases h : seen.contains c = true
    · have hc : c ∈ seen := by simpa using h
      rw [if_pos h, ih seen]
      constructor
      · rintro ⟨h1, h2⟩
        exact ⟨List.mem_cons_of_mem _ h1, h2⟩
      · rintro ⟨h1, h2⟩
        rcases List.mem_cons.mp h1 with rfl | h1
        · exact absurd hc h2
        · exact ⟨h1, h2⟩
    · have hc : c ∉ seen := by simpa using h
      rw [if_neg h]
      by_cases hax : a = c
      · subst hax
        simp [hc]
      · simp only [List.mem_cons, ih (c :: seen)]
        constructor
        · rintro (rfl | ⟨h1, h2⟩)
          · exact absurd rfl hax
          · refine ⟨Or.inr h1, ?_⟩
            intro hs
            exact h2 (Or.inr hs)
        · rintro ⟨h1 | h1, h2⟩
          · exact absurd h1 hax
          · refine Or.inr ⟨h1, ?_⟩
            rintro (h3 | h3)
            · exact hax h3
            · exact h2 h3

/-- The deduplication never repeats a value. -/
theorem nodup_firstSeenAux :
    ∀ (l seen : List String), (firstSeenAux seen l).Nodup := by
  intro l
  induction l with
  | nil => intro seen; simp [firstSeenAux]
  | cons c rest ih =>
    intro seen
    simp only [firstSeenAux]
    by_cases h : seen.contains c = true
    · rw [if_pos h]
      exact ih seen
    · rw [if_neg h]
      refine List.nodup_cons.mpr ⟨?_, ih (c :: seen)⟩
      intro hmem
      have := (mem_firstSeenAux c rest (c :: seen)).mp hmem
      exact this.2 (List.mem_cons_self c seen)

/-- Membership survives deduplication in both directions. -/
theorem mem_firstSeen (a : String) (l : List String) :
    a ∈ firstSeen l ↔ a ∈ l := by
  simpa [firstSeen] using mem_firstSeenAux a l []

/-- Mapping the first projection over a key-tagged pairing returns the keys. -/
theorem map_fst_pairing {b : Type} (f : String → b) (l : List String) :
    (l.map (fun c => (c, f c))).map Prod.fst = l := by
  induction l with
  | nil => rfl
  | cons a t ih => simp only [List.map_cons, ih]

/-- The rows of a concatenated frame are the concatenation of the rows. -/
theorem concatFrames_rows (l : List DistFrame) :
    (concatFrames l).rows = (l.map (fun f => f.rows)).flatten := by
  cases l with
  | nil => rfl
  | cons a t => rfl

/-- Claim C10: for every fetch outcome the scrape result either is the
single-key error record, detected by the workflow gate, or has exactly the
keys Page Title, Meta Description and Product Headings, in which case the
gate finds no error key. -/
theorem C10_scrape_keys_discriminate (f : FetchResult) :
    ((scrape_site f).map Prod.fst = ["error"] ∧
      (scrape_site f).any (fun kv => kv.1 == "error") = true) ∨
    ((scrape_site f).map Prod.fst =
        ["Page Title", "Meta Description", "Product Headings"] ∧
      (scrape_site f).any (fun kv => kv.1 == "error") = false) := by
  cases f with
  | fail msg => exact Or.inl ⟨rfl, rfl⟩
  | resp s r p =>
      by_cases h : 400 ≤ s ∧ s < 600
      · refine Or.inl ?_
        simp only [scrape_site]
        rw [if_pos h]
        exact ⟨rfl, rfl⟩
      · refine Or.inr ?_
        simp only [scrape_site]
        rw [if_neg h]
        exact ⟨rfl, rfl⟩

/-- Claim C3 as stated is false: with USA appearing before Mexico in the
combined distributor table, the groupby lists the Mexico group before the
USA group, because pandas groupby sorts group keys, while first-appearance
order would put USA first. -/
theorem C3_counterexample :
    groupbyCountry ⟨true, [⟨"MedEquip USA", "USA"⟩,
        ⟨"Distribuciones SaludMX", "Mexico"⟩]⟩ =
      Except.ok [("Mexico", ["Distribuciones SaludMX"]),
                 ("USA", ["MedEquip USA"])] ∧
    firstSeen (([⟨"MedEquip USA", "USA"⟩,
        ⟨"Distribuciones SaludMX", "Mexico"⟩] : List DistRow).map
      (fun r => r.country)) = ["USA", "Mexico"] ∧
    (["Mexico", "USA"] : List String) ≠ ["USA", "Mexico"] :=
  ⟨rfl, by decide, by decide⟩

/-- Claim C3 amended: the distributor section is grouped by country, one
heading plus one bullet per distributor name per group, each group holding
that country's distributor names in original row order, but the groups
appear in ascending lexicographic country order (pandas groupby sorts its
keys), not in order of first appearance in the combined table. -/
theorem C3_amended_distributor_grouping (df : DistFrame)
    (h : df.hasCols = true) :
    ∃ gs, groupbyCountry df = Except.ok gs ∧
      (gs.map Prod.fst).Pairwise (fun a b => strLe a b = true) ∧
      (gs.map Prod.fst).Nodup ∧
      (∀ c, c ∈ gs.map Prod.fst ↔ c ∈ df.rows.map (fun r => r.country)) ∧
      (∀ g ∈ gs, g.2 =
        (df.rows.filter (fun r => r.country == g.1)).map
          (fun r => r.distributor)) := by
  refine ⟨(sortStr (firstSeen (df.rows.map (fun r => r.country)))).map
      (fun c => (c, (df.rows.filter (fun r => r.country == c)).map
        (fun r => r.distributor))), ?_, ?_, ?_, ?_, ?_⟩
  · simp [groupbyCountry, h]
  · rw [map_fst_pairing]
    exact sortStr_pairwise _
  · rw [map_fst_pairing]
    exact ((sortStr_perm _).nodup_iff).mpr (nodup_firstSeenAux _ [])
  · intro c
    rw [map_fst_pairing, (sortStr_perm _).mem_iff, mem_firstSeen]
  · intro g hg
    rcases List.mem_map.mp hg with ⟨c, _, rfl⟩
    rfl

/-- Witness for C3 amended at a concrete two-country frame. -/
theorem C3_amended_distributor_grouping_witness :
    (DistFrame.mk true [⟨"MedEquip USA", "USA"⟩,
        ⟨"Distribuciones SaludMX", "Mexico"⟩]).hasCols = true ∧
    (∃ gs, groupbyCountry ⟨true, [⟨"MedEquip USA", "USA"⟩,
          ⟨"Distribuciones SaludMX", "Mexico"⟩]⟩ = Except.ok gs ∧
      (gs.map Prod.fst).Pairwise (fun a b => strLe a b = true) ∧
      (gs.map Prod.fst).Nodup ∧
      (∀ c, c ∈ gs.map Prod.fst ↔
        c ∈ (DistFrame.mk true [⟨"MedEquip USA", "USA"⟩,
          ⟨"Distribuciones SaludMX", "Mexico"⟩]).rows.map (fun r => r.country)) ∧
      (∀ g ∈ gs, g.2 =
        ((DistFrame.mk true [⟨"MedEquip USA", "USA"⟩,
            ⟨"Distribuciones SaludMX", "Mexico"⟩]).rows.filter
          (fun r => r.country == g.1)).map (fun r => r.distributor))) :=
  ⟨rfl, C3_amended_distributor_grouping
    ⟨true, [⟨"MedEquip USA", "USA"⟩, ⟨"Distribuciones SaludMX", "Mexico"⟩]⟩ rfl⟩

/-- Claim C4 as stated is false: stage 2 can produce the same country in
several rows (the Comtrade preview regularly repeats one partner over
several years), and the workflow then calls the lookup once per row, twice
for one distinct country here, not exactly once. -/
theorem C4_counterexample :
    suggest_markets (Except.ok (some
      [⟨some "USA", some "2010"⟩, ⟨some "USA", some "2011"⟩])) =
      ⟨true, [⟨"USA", "2010"⟩, ⟨"USA", "2011"⟩]⟩ ∧
    distributorLookupArgs [⟨"USA", "2010"⟩, ⟨"USA", "2011"⟩] =
      ["USA", "USA"] ∧
    firstSeen ["USA", "USA"] = ["USA"] ∧
    (["USA", "USA"] : List String) ≠ ["USA"] :=
  ⟨rfl, rfl, by decide, by decide⟩

/-- Claim C4 amended: Distributor Lookup is invoked once per market row
whose country is neither Error nor Exception, in row order (so a country
occupying several rows is looked up several times), and the combined table
concatenates the per-invocation tables in that order, preserving each
per-country block; when no row qualifies the combined table is the
column-free empty frame. -/
theorem C4_amended_lookup_per_row (market : List MarketRow) :
    distributorLookupArgs market =
      (market.map (fun r => r.country)).filter
        (fun c => !(c == "Error" || c == "Exception")) ∧
    (concatFrames (distributor_df_list market)).rows =
      ((distributorLookupArgs market).map
        (fun c => (trusted c).map (fun d => DistRow.mk d c))).flatten ∧
    (distributor_df_list market = [] →
      concatFrames (distributor_df_list market) = ⟨false, []⟩) := by
  refine ⟨?_, ?_, ?_⟩
  · induction market with
    | nil => rfl
    | cons r rs ih =>
      simp only [distributorLookupArgs] at ih ⊢
      simp only [List.map_cons, List.filter_cons]
      by_cases hb : (!(r.country == "Error" || r.country == "Exception")) = true
      · rw [if_pos hb, if_pos hb, List.map_cons, ih]
      · rw [if_neg hb, if_neg hb, ih]
  · rw [concatFrames_rows]
    simp only [distributor_df_list, List.map_map]
    rfl
  · intro h
    simp [concatFrames, h]

/-- Witness for C4 amended on a market table with a sentinel row, a
repeated country and an unknown country. -/
theorem C4_amended_lookup_per_row_witness :
    distributorLookupArgs [⟨"Error", "m"⟩, ⟨"USA", "1"⟩, ⟨"USA", "2"⟩,
        ⟨"Atlantis", "3"⟩] =
      (([⟨"Error", "m"⟩, ⟨"USA", "1"⟩, ⟨"USA", "2"⟩,
          ⟨"Atlantis", "3"⟩] : List MarketRow).map
        (fun r => r.country)).filter
          (fun c => !(c == "Error" || c == "Exception")) ∧
    (concatFrames (distributor_df_list [⟨"Error", "m"⟩, ⟨"USA", "1"⟩,
        ⟨"USA", "2"⟩, ⟨"Atlantis", "3"⟩])).rows =
      ((distributorLookupArgs [⟨"Error", "m"⟩, ⟨"USA", "1"⟩, ⟨"USA", "2"⟩,
          ⟨"Atlantis", "3"⟩]).map
        (fun c => (trusted c).map (fun d => DistRow.mk d c))).flatten ∧
    (distributor_df_list [⟨"Error", "m"⟩, ⟨"USA", "1"⟩, ⟨"USA", "2"⟩,
        ⟨"Atlantis", "3"⟩] = [] →
      concatFrames (distributor_df_list [⟨"Error", "m"⟩, ⟨"USA", "1"⟩,
        ⟨"USA", "2"⟩, ⟨"Atlantis", "3"⟩]) = ⟨false, []⟩) :=
  C4_amended_lookup_per_row
    [⟨"Error", "m"⟩, ⟨"USA", "1"⟩, ⟨"USA", "2"⟩, ⟨"Atlantis", "3"⟩]

/-- Claim C2 as stated is false: feeding the Report Composer an empty
SiteSummary and empty market, buyer and distributor tables (the empty
pandas frames, which are column-free) does not yield the headered report;
the groupby on the column-free distributor frame raises KeyError, which
the except clause converts into the single failure message, so no section
header appears. -/
theorem C2_counterexample :
    create_report [] ⟨false, []⟩ [] ⟨false, []⟩ =
      "Report generation failed: \x27Country\x27" ∧
    strContains (create_report [] ⟨false, []⟩ [] ⟨false, []⟩) "### Top Markets" =
      false ∧
    strContains (create_report [] ⟨false, []⟩ [] ⟨false, []⟩) "**Brand Title:**" =
      false :=
  ⟨rfl, by decide, by decide⟩

/-- Claim C2 amended: the Report Composer never raises past its boundary;
on the column-free empty distributor frame the pipeline actually builds
(pd.DataFrame()), the caught KeyError replaces the whole report with the
single failure message, while an empty distributor frame that still has
its columns yields the report with all six fixed section markers and empty
bodies. -/
theorem C2_amended_composer_never_raises :
    create_report [] ⟨false, []⟩ [] ⟨false, []⟩ =
      "Report generation failed: \x27Country\x27" ∧
    create_report [] ⟨false, []⟩ [] ⟨true, []⟩ =
      reportTemplate "N/A" "N/A" "" (marketMarkdown ⟨false, []⟩)
        (buyersMarkdown []) "" ∧
    strContains (create_report [] ⟨false, []⟩ [] ⟨true, []⟩)
      "## Export Opportunity Report" = true ∧
    strContains (create_report [] ⟨false, []⟩ [] ⟨true, []⟩) "**Brand Title:**" = true ∧
    strContains (create_report [] ⟨false, []⟩ [] ⟨true, []⟩)
      "**Meta Description:**" = true ∧
    strContains (create_report [] ⟨false, []⟩ [] ⟨true, []⟩)
      "### Sample Product Headings" = true ∧
    strContains (create_report [] ⟨false, []⟩ [] ⟨true, []⟩) "### Top Markets" = true ∧
    strContains (create_report [] ⟨false, []⟩ [] ⟨true, []⟩) "### Buyer Leads" = true ∧
    strContains (create_report [] ⟨false, []⟩ [] ⟨true, []⟩)
      "### Trusted Distributors by Country" = true :=
  ⟨rfl, rfl, by decide, by decide, by decide, by decide, by decide,
   by decide, by decide⟩

/-- Claim C1 scenario, evaluated on the embedded workflow: title Acme
Mobility, no meta description, three qualifying headings, empty keyword
(the API is only consulted at the default term Mobility equipment), failed
market query, no upload. The single market row carries the Error sentinel,
so no distributor lookup runs, the combined frame is the column-free empty
frame, and create_report returns the failure message instead of the report
the claim describes: none of the expected content survives. -/
theorem C1_endtoend_report_failure :
    workflow (FetchResult.resp 200 "OK"
        ⟨some "Acme Mobility", none,
         [⟨"h1", "Mobility Scooters"⟩, ⟨"h2", "Power Wheelchairs"⟩,
          ⟨"h3", "Walking Aids Pro"⟩]⟩)
      ""
      (fun t => if t == "Mobility equipment"
        then Except.error "ConnectionError" else Except.ok (some []))
      none =
      some "Report generation failed: \x27Country\x27" ∧
    suggest_markets (Except.error "ConnectionError") =
      ⟨true, [⟨"Error", "ConnectionError"⟩]⟩ ∧
    distributorLookupArgs [⟨"Error", "ConnectionError"⟩] = [] ∧
    strContains "Report generation failed: \x27Country\x27"
      "Acme Mobility" = false :=
  ⟨rfl, rfl, rfl, by decide⟩

/-! ### Base64 round trip -/

/-- Decoding inverts encoding on each 6-bit value. -/
theorem decChar_encChar : ∀ n, n < 64 → decChar (encChar n) = n := by decide

/-- No 6-bit value encodes to the padding character. -/
theorem encChar_ne_pad : ∀ n, n < 64 → encChar n ≠ '=' := by decide

/-- base64 decoding inverts base64 encoding on every byte sequence. -/
theorem b64_roundtrip : ∀ l : List Nat, (∀ b ∈ l, b < 256) →
    b64decode (b64encode l) = some l
  | [], _ => rfl
  | [a], h => by
      have ha : a < 256 := h a (by simp)
      simp only [b64encode, b64decode]
      rw [if_pos trivial, if_pos (⟨trivial, trivial⟩ : True ∧ True)]
      rw [decChar_encChar (a / 4) (by omega),
          decChar_encChar (a % 4 * 16) (by omega)]
      simp only [Option.some.injEq, List.cons.injEq, and_true]
      omega
  | [a, b], h => by
      have ha : a < 256 := h a (by simp)
      have hb : b < 256 := h b (by simp)
      simp only [b64encode, b64decode]
      rw [if_neg (encChar_ne_pad (b % 16 * 4) (by omega)), if_pos trivial,
          if_pos trivial]
      rw [decChar_encChar (a / 4) (by omega),
          decChar_encChar (a % 4 * 16 + b / 16) (by omega),
          decChar_encChar (b % 16 * 4) (by omega)]
      simp only [Option.some.injEq, List.cons.injEq, and_true]
      omega
  | a :: b :: c :: rest, h => by
      have ha : a < 256 := h a (by simp)
      have hb : b < 256 := h b (by simp)
      have hc : c < 256 := h c (by simp)
      have ih := b64_roundtrip rest (fun x hx => h x (by simp [hx]))
      simp only [b64encode, b64decode]
      rw [if_neg (encChar_ne_pad (b % 16 * 4 + c / 64) (by omega)),
          if_neg (encChar_ne_pad (c % 64) (by omega))]
      rw [ih]
      simp only [Option.map_some', decodeQuad]
      rw [decChar_encChar (a / 4) (by omega),
          decChar_encChar (a % 4 * 16 + b / 16) (by omega),
          decChar_encChar (b % 16 * 4 + c / 64) (by omega),
          decChar_encChar (c % 64) (by omega)]
      simp only [List.cons_append, List.nil_append, Option.some.injEq,
        List.cons.injEq, eq_self_iff_true, and_true]
      omega

/-- Claim C9: the download link is the fixed anchor embedding the base64
payload of the report bytes, and that payload decodes back to exactly the
original bytes; base64 encoding of bytes is total, so the except branch of
download_link is unreachable. -/
theorem C9_download_link_roundtrip (content : List Nat)
    (download_filename link_text : String)
    (h : ∀ b ∈ content, b < 256) :
    download_link content download_filename link_text =
      "<a href=\"data:file/txt;base64," ++ String.mk (b64encode content) ++
        "\" download=\"" ++ download_filename ++ "\">" ++ link_text ++
        "</a>" ∧
    b64decode (b64encode content) = some content :=
  ⟨rfl, b64_roundtrip content h⟩

/-- Witness for C9 on the concrete byte sequence 72, 105, 33. -/
theorem C9_download_link_roundtrip_witness :
    (∀ b ∈ ([72, 105, 33] : List Nat), b < 256) ∧
    (download_link [72, 105, 33] "export_report.md" "Download" =
      "<a href=\"data:file/txt;base64," ++
        String.mk (b64encode [72, 105, 33]) ++
        "\" download=\"" ++ "export_report.md" ++ "\">" ++ "Download" ++
        "</a>" ∧
     b64decode (b64encode [72, 105, 33]) = some [72, 105, 33]) :=
  ⟨by decide, C9_download_link_roundtrip [72, 105, 33] "export_report.md"
    "Download" (by decide)⟩

end EMC
